import Mathlib

/-!
Verification development for the ai-safety-radar pipeline.

The Python sources are embedded shallowly: pure functions become Lean
functions, the external collaborators (the regex engine, the LLM boundary,
the Redis marker store and streams) become explicit inputs or oracle
functions, and fallible calls are `Except`/`Option` values.  Each
definition is translated from the named source function; comments cite the
file and the behaviour that is abstracted.
-/

/-! ## Deterministic pre-filter — `src/ai_safety_radar/agents/filter_logic.py`

`MLSecurityFilter.evaluate` matches six compiled regular expressions against
the lower-cased concatenation of title and abstract, and computes its result
from the `findall` outputs alone.  The regex engine is external to the
scoring logic, so the embedding takes a `RegexMatches` record — for each of
the six patterns, the list of matched strings that `findall` returned on the
text — and translates the body of `evaluate` (lines 107–177) over it.
A (title, abstract) pair determines exactly one such record. -/

structure RegexMatches where
  kill_matches : List String
  ml_anchors : List String
  strong_matches : List String
  safety_matches : List String
  ambiguous_matches : List String
  genai_matches : List String
deriving DecidableEq

/-- One entry of the `reasons` list.  The Python code builds tagged strings
such as `"STRONG_AML: ..."` interpolating an (unordered) Python set of the
matched terms; the embedding keeps the tag and the matched list as data
instead of rendering the set. -/
inductive Reason where
  | KILL_LIST (terms : List String)
  | STRONG_AML (terms : List String)
  | SAFETY_TERMS (terms : List String)
  | VALIDATED_AMBIGUOUS (terms : List String)
  | IGNORED_AMBIGUOUS (terms : List String)
  | GENAI_BOOST (terms : List String)
  | ML_FOUNDATION (count : Nat)
  | NO_SIGNALS
deriving DecidableEq

inductive FilterStatus where
  | ACCEPT
  | REJECT
deriving DecidableEq, BEq

/-- Result dict of `MLSecurityFilter.evaluate`.  `score` is a Python `int`
(`round(int, 1)` is the identity); `confidence` is modelled as an exact
rational — every reachable value of `min(score / 100, 0.99)` has at most two
decimal places, so the trailing `round(..., 2)` is the identity up to float
representation. -/
structure PreFilterResult where
  status : FilterStatus
  score : Nat
  reasons : List Reason
  confidence : ℚ
deriving DecidableEq

/-- Translation of `MLSecurityFilter.evaluate` (filter_logic.py lines
107–177).  The sequential `score` / `reasons` accumulation of the Python
body is mirrored by shadowing `let`s, one per CHECK block.  `int(score *
1.3)` is embedded as `score * 13 / 10` in `Nat`: every score reaching CHECK
5 is a sum of 50/30/20·k increments, hence a multiple of 10, on which float
multiplication by 1.3 followed by `int` truncation agrees with exact
arithmetic. -/
def MLSecurityFilter.evaluate (m : RegexMatches) : PreFilterResult :=
  let ml_anchor_count := m.ml_anchors.length
  -- CHECK 1: kill list short-circuit
  if m.kill_matches ≠ [] ∧ ml_anchor_count < 2 then
    { status := .REJECT, score := 0,
      reasons := [.KILL_LIST m.kill_matches], confidence := 95/100 }
  else
    let score : Nat := 0
    let reasons : List Reason := []
    -- CHECK 2: strong AML signals
    let score := if m.strong_matches ≠ [] then score + 50 else score
    let reasons := if m.strong_matches ≠ [] then
      reasons ++ [.STRONG_AML m.strong_matches] else reasons
    -- CHECK 3: safety/alignment terms
    let score := if m.safety_matches ≠ [] then score + 30 else score
    let reasons := if m.safety_matches ≠ [] then
      reasons ++ [.SAFETY_TERMS m.safety_matches] else reasons
    -- CHECK 4: ambiguous terms, validated by at least one ML anchor
    let score := if m.ambiguous_matches ≠ [] ∧ 1 ≤ ml_anchor_count then
      score + 20 * min m.ambiguous_matches.length 3 else score
    let reasons := if m.ambiguous_matches ≠ [] then
      (if 1 ≤ ml_anchor_count then reasons ++ [.VALIDATED_AMBIGUOUS m.ambiguous_matches]
       else reasons ++ [.IGNORED_AMBIGUOUS m.ambiguous_matches]) else reasons
    -- CHECK 5: GenAI boost
    let score := if m.genai_matches ≠ [] then score * 13 / 10 else score
    let reasons := if m.genai_matches ≠ [] then
      reasons ++ [.GENAI_BOOST m.genai_matches] else reasons
    -- CHECK 6: ML foundation
    let score := if 3 ≤ ml_anchor_count then score + 10 else score
    let reasons := if 3 ≤ ml_anchor_count then
      reasons ++ [.ML_FOUNDATION ml_anchor_count] else reasons
    -- decision threshold
    let confidence : ℚ := min ((score : ℚ) / 100) (99/100)
    let status : FilterStatus := if 50 ≤ score then .ACCEPT else .REJECT
    { status := status, score := score,
      reasons := if reasons = [] then [.NO_SIGNALS] else reasons,
      confidence := confidence }

/-- Modelled from the spec (§4.1 / claim C5): the reference score
computation, with the final bonus read literally as "if ≥3 **distinct**
ML-anchor terms matched in total, add a flat +10" (distinct via `dedup`).
The Python code counts `findall` occurrences instead. -/
def preFilterSpecScoreDistinct (m : RegexMatches) : Nat :=
  let base := (if m.strong_matches ≠ [] then 50 else 0)
    + (if m.safety_matches ≠ [] then 30 else 0)
    + (if m.ambiguous_matches ≠ [] ∧ 1 ≤ m.ml_anchors.length then
        20 * min m.ambiguous_matches.length 3 else 0)
  let boosted := if m.genai_matches ≠ [] then base * 13 / 10 else base
  boosted + (if 3 ≤ m.ml_anchors.dedup.length then 10 else 0)

/-- The same reference computation with the +10 bonus keyed on the total
number of ML-anchor matches (occurrences, with repeats), which is what
`len(self.ML_ANCHORS.findall(text)) >= 3` tests. -/
def preFilterSpecScoreOccurrences (m : RegexMatches) : Nat :=
  let base := (if m.strong_matches ≠ [] then 50 else 0)
    + (if m.safety_matches ≠ [] then 30 else 0)
    + (if m.ambiguous_matches ≠ [] ∧ 1 ≤ m.ml_anchors.length then
        20 * min m.ambiguous_matches.length 3 else 0)
  let boosted := if m.genai_matches ≠ [] then base * 13 / 10 else base
  boosted + (if 3 ≤ m.ml_anchors.length then 10 else 0)

/-! ## Two-stage filter — `src/ai_safety_radar/agents/filter_agent.py` -/

/-- Defaults of `Settings.filter_regex_threshold` and
`Settings.filter_auto_accept_threshold` (config.py lines 88–95). -/
def Settings.filter_regex_threshold : Nat := 30

def Settings.filter_auto_accept_threshold : Nat := 70

/-- The `FilterResult` pydantic model of filter_agent.py. -/
structure FilterResult where
  reasoning : String
  confidence_score : ℚ
  is_relevant : Bool
deriving DecidableEq

/-- Translation of `FilterAgent.analyze` (filter_agent.py lines 49–135).
The structured-extraction boundary is an oracle: `llm` is the outcome the
single `llm_client.extract` call would have (a validated `FilterResult`, or
the raised exception's message).  The second component counts how many LLM
calls the run issues.  The reasoning strings keep the fixed text of the
Python f-strings; the interpolated reasons list is omitted from the
rendering (it is carried structurally in `PreFilterResult.reasons`). -/
def FilterAgent.analyze (m : RegexMatches) (llm : Except String FilterResult) :
    FilterResult × Nat :=
  let regex_result := MLSecurityFilter.evaluate m
  -- STAGE 1: score below threshold — reject, no LLM call
  if regex_result.score < Settings.filter_regex_threshold then
    ({ is_relevant := false,
       confidence_score := regex_result.confidence,
       reasoning := "Pre-filter rejected (score=" ++ toString regex_result.score ++ ")" }, 0)
  -- score very high — auto-accept, no LLM call
  else if Settings.filter_auto_accept_threshold ≤ regex_result.score then
    ({ is_relevant := true,
       confidence_score := regex_result.confidence,
       reasoning := "Strong match (score=" ++ toString regex_result.score ++ ")" }, 0)
  else
    -- STAGE 2: one LLM call; on exception fall back to the regex result
    match llm with
    | .ok llm_result => (llm_result, 1)
    | .error e =>
        ({ reasoning := "LLM error, using pre-filter (score="
             ++ toString regex_result.score ++ "): " ++ e,
           confidence_score := regex_result.confidence,
           is_relevant := regex_result.status == FilterStatus.ACCEPT }, 1)

/-! ## Severity normalization — `src/ai_safety_radar/models/threat_signature.py` -/

/-- Python `str.lower()`, as a character-wise map (the embedded strings are
ASCII, on which `Char.toLower` agrees with Python). -/
def pyLower (s : String) : String := String.mk (s.data.map Char.toLower)

/-- Input to the `severity` field validator: pydantic hands it the raw
value, which `convert_severity` inspects with `isinstance`.  `other` stands
for any value that is neither a `str` nor an `int`. -/
inductive SeverityInput where
  | str (s : String)
  | int (n : Int)
  | other
deriving DecidableEq

/-- Translation of `ThreatSignature.convert_severity` (threat_signature.py
lines 33–50): a string is looked up lower-cased in the severity map with
default 1; an int outside 1–5 normalizes to 1; anything else becomes 1. -/
def ThreatSignature.convert_severity : SeverityInput → Int
  | .str s =>
      let l := pyLower s
      if l = "critical" then 5
      else if l = "high" then 4
      else if l = "medium" then 3
      else if l = "low" then 2
      else if l = "info" then 1
      else 1
  | .int n => if 1 ≤ n ∧ n ≤ 5 then n else 1
  | .other => 1

/-! ## Data model — `src/ai_safety_radar/models/` -/

/-- Timestamps (`datetime`) only flow through the embedded code paths as
opaque values that are copied; an integer stands in for them. -/
abbrev Timestamp := Int

/-- The fields of `RawDocument` (models/raw_document.py) that the embedded
code paths read.  `metadata` and `ingested_at` are never consulted by the
filter, extraction, dedup or queue code and are omitted. -/
structure RawDocument where
  id : String
  title : String
  url : String
  content : String
  source : String
  published_date : Timestamp
deriving DecidableEq

/-- The `attack_type` Literal enumeration of `ThreatSignature`. -/
def attackTypeValues : List String :=
  ["Jailbreak", "Prompt Injection", "Data Poisoning", "Backdoor",
   "Model Extraction", "Adversarial Example", "Other"]

/-- The `modality` Literal enumeration of `ThreatSignature`. -/
def modalityValues : List String :=
  ["Text", "Vision", "Audio", "Multi-modal", "Agentic"]

/-- A validated `ThreatSignature` (threat_signature.py).  `severity` is the
integer the field validator produced.  `processed_at` (a construction-time
default timestamp) is omitted; `arxiv_category` and `citation_count` carry
their pydantic defaults when not passed. -/
structure ThreatSignature where
  title : String
  url : String
  published_date : Timestamp
  relevance_score : ℚ
  attack_type : String
  modality : List String
  affected_models : List String
  is_theoretical : Bool
  severity : Int
  summary_tldr : String
  summary_detailed : String
  key_findings : List String
  methodology_brief : Option String
  code_repository : Option String
  arxiv_category : String
  citation_count : Option Int
  source : String
deriving DecidableEq

/-- Pydantic construction of a `ThreatSignature`: the field constraints of
threat_signature.py (title length 5–500, url pattern `^https?://`,
relevance score in 0–1, `attack_type` and `modality` enumeration
membership, `summary_tldr` at most 280 characters) are validated, the
`severity` validator runs, and construction fails (raises) if any
constraint is violated. -/
def ThreatSignature.make (title url : String) (published_date : Timestamp)
    (relevance_score : ℚ) (attack_type : String) (modality : List String)
    (affected_models : List String) (is_theoretical : Bool)
    (severity : SeverityInput) (summary_tldr summary_detailed : String)
    (key_findings : List String) (methodology_brief code_repository : Option String)
    (source : String) : Option ThreatSignature :=
  if 5 ≤ title.length ∧ title.length ≤ 500
      ∧ ("http://".data.isPrefixOf url.data ∨ "https://".data.isPrefixOf url.data)
      ∧ 0 ≤ relevance_score ∧ relevance_score ≤ 1
      ∧ attack_type ∈ attackTypeValues
      ∧ (∀ x ∈ modality, x ∈ modalityValues)
      ∧ summary_tldr.length ≤ 280 then
    some { title := title, url := url, published_date := published_date,
           relevance_score := relevance_score, attack_type := attack_type,
           modality := modality, affected_models := affected_models,
           is_theoretical := is_theoretical,
           severity := ThreatSignature.convert_severity severity,
           summary_tldr := summary_tldr, summary_detailed := summary_detailed,
           key_findings := key_findings, methodology_brief := methodology_brief,
           code_repository := code_repository,
           arxiv_category := "cs.AI", citation_count := some 0,
           source := source }
  else none

/-! ## Extraction step — `src/ai_safety_radar/agents/extraction_agent.py` -/

/-- The `ExtractionResult` intermediate pydantic model (extraction_agent.py
lines 10–51): the schema the structured-extraction boundary validates
before handing the result back. -/
structure ExtractionResult where
  title : String
  relevance_score : ℚ
  attack_type : String
  modality : List String
  affected_models : List String
  is_theoretical : Bool
  severity : String
  summary_tldr : String
  summary_detailed : String
  key_findings : List String
  methodology_brief : Option String
  code_repository : Option String
deriving DecidableEq

/-- Translation of `ExtractionAgent.process` (extraction_agent.py lines
59–117).  `llm` is the outcome of the single structured-extraction call
(`.error` for a raised exception).  Empty content returns `None`; a failed
call or a failed `ThreatSignature` construction is caught and returns
`None`; on success `url`, `published_date`, `source` come from the
document and the rest from the extraction. -/
def ExtractionAgent.process (doc : RawDocument)
    (llm : Except String ExtractionResult) : Option ThreatSignature :=
  if doc.content = "" then none
  else
    match llm with
    | .error _ => none
    | .ok extraction =>
        ThreatSignature.make extraction.title doc.url doc.published_date
          extraction.relevance_score extraction.attack_type extraction.modality
          extraction.affected_models extraction.is_theoretical
          (.str extraction.severity) extraction.summary_tldr
          extraction.summary_detailed extraction.key_findings
          extraction.methodology_brief extraction.code_repository doc.source

/-! ## Editorial workflow — `src/ai_safety_radar/orchestration/editorial_graph.py`

The langgraph `StateGraph` is a finite-state loop: `draft → critique →
(approved: END | max_retries: END | rejected: revise → critique)`.  The
curator and critic LLM calls are oracles; the critic oracle is indexed by
the number of the critique call so that every behaviour (including one that
rejects every draft) is representable. -/

structure DailyBriefing where
  summary_markdown : String
  highlighted_threat_ids : List String
  headline : String
deriving DecidableEq

structure CritiqueResult where
  is_approved : Bool
  feedback : String
  score : Nat
deriving DecidableEq

/-- Outcomes of the curator LLM calls: the briefing `draft_briefing`
obtains for a non-empty batch, and the revision `revise_briefing` obtains
from a rejected draft and its feedback. -/
structure CuratorOracle where
  draftResult : DailyBriefing
  reviseResult : DailyBriefing → String → DailyBriefing

/-- Outcome of the k-th `CriticAgent.critique` call on the given draft. -/
structure CriticOracle where
  critique : Nat → DailyBriefing → CritiqueResult

def EditorialGraph.MAX_RETRIES : Nat := 3

/-- Translation of `CuratorAgent.draft_briefing` (curator_agent.py lines
20–71): an empty batch short-circuits to the canned briefing with no LLM
call; otherwise the result is the structured-extraction call's outcome. -/
def CuratorAgent.draft_briefing (curator : CuratorOracle)
    (threats : List ThreatSignature) : DailyBriefing :=
  if threats = [] then
    { summary_markdown := "No new significant threats detected today.",
      highlighted_threat_ids := [],
      headline := "Quiet Day on the AI Front" }
  else curator.draftResult

/-- One editorial run after the draft node: the critique/revise loop,
recorded with the briefings and counters the claims speak about. -/
structure EditorialOutcome where
  final_output : Option DailyBriefing
  current_briefing : DailyBriefing
  critique_calls : Nat
  last_critique : CritiqueResult

/-- The `critique → check_approval → (END | revise → critique)` loop of
editorial_graph.py (lines 64–99).  `callIdx` numbers the critique calls,
`retry_count` is the state field of the same name.  `check_approval` ends
the run when the critique approves, or when `retry_count >= MAX_RETRIES`;
otherwise `revise_node` produces a new draft, increments `retry_count`, and
the loop re-enters `critique`. -/
def EditorialGraph.critiqueLoop (critic : CriticOracle)
    (reviseResult : DailyBriefing → String → DailyBriefing)
    (callIdx retry_count : Nat) (current : DailyBriefing) : EditorialOutcome :=
  let result := critic.critique callIdx current
  if result.is_approved then
    { final_output := some current, current_briefing := current,
      critique_calls := 1, last_critique := result }
  else if EditorialGraph.MAX_RETRIES ≤ retry_count then
    { final_output := none, current_briefing := current,
      critique_calls := 1, last_critique := result }
  else
    let revised := reviseResult current result.feedback
    let rest := EditorialGraph.critiqueLoop critic reviseResult
      (callIdx + 1) (retry_count + 1) revised
    { rest with critique_calls := rest.critique_calls + 1 }
termination_by EditorialGraph.MAX_RETRIES + 1 - retry_count
decreasing_by simp_wf; omega

/-- Translation of `EditorialGraph.run` (editorial_graph.py lines 101–113):
build the initial state, enter at `draft` (which stores the drafted
briefing and resets `retry_count` to 0), run the critique loop, and return
`final_output or current_briefing`. -/
def EditorialGraph.run (curator : CuratorOracle) (critic : CriticOracle)
    (threats : List ThreatSignature) : Option DailyBriefing × EditorialOutcome :=
  let briefing := CuratorAgent.draft_briefing curator threats
  let outcome := EditorialGraph.critiqueLoop critic curator.reviseResult 0 0 briefing
  (match outcome.final_output with
   | some b => some b
   | none => some outcome.current_briefing, outcome)

/-! ## SHA-256 — the `hashlib.sha256` collaborator of
`compute_content_hash` (scripts/run_agent_core.py)

A byte-level FIPS 180-4 SHA-256 over `Nat`, with 32-bit words kept below
`2 ^ 32` by explicit reductions.  `hexDigest` matches
`hashlib.sha256(bytes).hexdigest()`. -/

def pow32 : Nat := 4294967296

def Sha256.rotr (n x : Nat) : Nat := ((x >>> n) ||| (x <<< (32 - n))) % pow32

def Sha256.not32 (x : Nat) : Nat := x ^^^ (pow32 - 1)

def Sha256.bsig0 (x : Nat) : Nat := Sha256.rotr 2 x ^^^ Sha256.rotr 13 x ^^^ Sha256.rotr 22 x

def Sha256.bsig1 (x : Nat) : Nat := Sha256.rotr 6 x ^^^ Sha256.rotr 11 x ^^^ Sha256.rotr 25 x

def Sha256.ssig0 (x : Nat) : Nat := Sha256.rotr 7 x ^^^ Sha256.rotr 18 x ^^^ (x >>> 3)

def Sha256.ssig1 (x : Nat) : Nat := Sha256.rotr 17 x ^^^ Sha256.rotr 19 x ^^^ (x >>> 10)

def Sha256.ch (x y z : Nat) : Nat := (x &&& y) ^^^ (Sha256.not32 x &&& z)

def Sha256.maj (x y z : Nat) : Nat := (x &&& y) ^^^ (x &&& z) ^^^ (y &&& z)

def Sha256.K : List Nat :=
  [1116352408, 1899447441, 3049323471, 3921009573,
   961987163, 1508970993, 2453635748, 2870763221,
   3624381080, 310598401, 607225278, 1426881987,
   1925078388, 2162078206, 2614888103, 3248222580,
   3835390401, 4022224774, 264347078, 604807628,
   770255983, 1249150122, 1555081692, 1996064986,
   2554220882, 2821834349, 2952996808, 3210313671,
   3336571891, 3584528711, 113926993, 338241895,
   666307205, 773529912, 1294757372, 1396182291,
   1695183700, 1986661051, 2177026350, 2456956037,
   2730485921, 2820302411, 3259730800, 3345764771,
   3516065817, 3600352804, 4094571909, 275423344,
   430227734, 506948616, 659060556, 883997877,
   958139571, 1322822218, 1537002063, 1747873779,
   1955562222, 2024104815, 2227730452, 2361852424,
   2428436474, 2756734187, 3204031479, 3329325298]

/-- Pad a byte message: append `0x80`, zero bytes to 56 mod 64, then the
bit length as 8 big-endian bytes. -/
def Sha256.pad (msg : List Nat) : List Nat :=
  let bitLen := 8 * msg.length
  let zeros := (64 - ((msg.length + 9) % 64)) % 64
  msg ++ [0x80] ++ List.replicate zeros 0
      ++ (List.range 8).map (fun i => (bitLen >>> (8 * (7 - i))) &&& 255)

/-- Big-endian 32-bit words from bytes. -/
def Sha256.toWords : List Nat → List Nat
  | b0 :: b1 :: b2 :: b3 :: rest =>
      (((b0 <<< 8 ||| b1) <<< 8 ||| b2) <<< 8 ||| b3) :: Sha256.toWords rest
  | _ => []

/-- Split a byte list into 64-byte blocks.  The structural fuel is the
input length, which bounds the number of blocks. -/
def Sha256.chunks64Fuel : Nat → List Nat → List (List Nat)
  | _, [] => []
  | 0, _ => []
  | fuel + 1, a :: rest =>
      ((a :: rest).take 64) :: Sha256.chunks64Fuel fuel ((a :: rest).drop 64)

def Sha256.chunks64 (l : List Nat) : List (List Nat) := Sha256.chunks64Fuel l.length l

/-- Extend the 16 block words to the 64-entry message schedule.  `acc` is
the schedule so far, most recent word first; the result is in order. -/
def Sha256.extendSchedule : Nat → List Nat → List Nat
  | 0, acc => acc.reverse
  | k + 1, acc =>
      let next := (Sha256.ssig1 (acc.getD 1 0) + acc.getD 6 0
        + Sha256.ssig0 (acc.getD 14 0) + acc.getD 15 0) % pow32
      Sha256.extendSchedule k (next :: acc)

structure Sha256.Hash where
  a : Nat
  b : Nat
  c : Nat
  d : Nat
  e : Nat
  f : Nat
  g : Nat
  h : Nat
deriving DecidableEq

def Sha256.initHash : Sha256.Hash :=
  ⟨1779033703,
   3144134277,
   1013904242,
   2773480762,
   1359893119,
   2600822924,
   528734635,
   1541459225⟩

def Sha256.compressStep (st : Sha256.Hash) (k w : Nat) : Sha256.Hash :=
  let t1 := (st.h + Sha256.bsig1 st.e + Sha256.ch st.e st.f st.g + k + w) % pow32
  let t2 := (Sha256.bsig0 st.a + Sha256.maj st.a st.b st.c) % pow32
  { a := (t1 + t2) % pow32, b := st.a, c := st.b, d := st.c,
    e := (st.d + t1) % pow32, f := st.e, g := st.f, h := st.g }

def Sha256.compressBlock (st : Sha256.Hash) (block : List Nat) : Sha256.Hash :=
  let ws := Sha256.extendSchedule 48 (Sha256.toWords block).reverse
  let fin := (Sha256.K.zip ws).foldl (fun s kw => Sha256.compressStep s kw.1 kw.2) st
  { a := (st.a + fin.a) % pow32, b := (st.b + fin.b) % pow32,
    c := (st.c + fin.c) % pow32, d := (st.d + fin.d) % pow32,
    e := (st.e + fin.e) % pow32, f := (st.f + fin.f) % pow32,
    g := (st.g + fin.g) % pow32, h := (st.h + fin.h) % pow32 }

def Sha256.digestWords (msg : List Nat) : List Nat :=
  let fin := (Sha256.chunks64 (Sha256.pad msg)).foldl Sha256.compressBlock Sha256.initHash
  [fin.a, fin.b, fin.c, fin.d, fin.e, fin.f, fin.g, fin.h]

def hexDigitChar (n : Nat) : Char :=
  if n < 10 then Char.ofNat (48 + n) else Char.ofNat (87 + n)

def wordHexChars (x : Nat) : List Char :=
  (List.range 8).map (fun i => hexDigitChar ((x >>> (4 * (7 - i))) &&& 15))

/-- `hashlib.sha256(msg).hexdigest()` for a byte message. -/
def Sha256.hexDigest (msg : List Nat) : String :=
  String.mk (((Sha256.digestWords msg).map wordHexChars).flatten)

/-- UTF-8 encoding of one character (`str.encode()`). -/
def utf8Bytes (c : Char) : List Nat :=
  let n := c.toNat
  if n < 0x80 then [n]
  else if n < 0x800 then [0xc0 ||| (n >>> 6), 0x80 ||| (n &&& 63)]
  else if n < 0x10000 then
    [0xe0 ||| (n >>> 12), 0x80 ||| ((n >>> 6) &&& 63), 0x80 ||| (n &&& 63)]
  else
    [0xf0 ||| (n >>> 18), 0x80 ||| ((n >>> 12) &&& 63),
     0x80 ||| ((n >>> 6) &&& 63), 0x80 ||| (n &&& 63)]

def strUtf8 (s : String) : List Nat := (s.data.map utf8Bytes).flatten

/-! ## Deduplication — `src/ai_safety_radar/scripts/run_agent_core.py`
lines 21–58 -/

/-- Python `str.split()` with no argument: split on runs of whitespace,
dropping empty pieces.  `cur` is the current word, reversed. -/
def pySplitAux : List Char → List Char → List String
  | [], [] => []
  | [], cur => [String.mk cur.reverse]
  | c :: rest, cur =>
      if c.isWhitespace then
        (if cur = [] then pySplitAux rest []
         else String.mk cur.reverse :: pySplitAux rest [])
      else pySplitAux rest (c :: cur)

def pySplit (s : String) : List String := pySplitAux s.data []

/-- Python `"".join(c for c in s if c.isalnum() or c.isspace())`.
`Char.isAlphanum`/`Char.isWhitespace` stand in for the Python character
classes (they agree on ASCII). -/
def keepAlnumSpace (s : String) : String :=
  String.mk (s.data.filter (fun c => c.isAlphanum || c.isWhitespace))

/-- Translation of `compute_content_hash` (run_agent_core.py lines 21–26):
lower-case, collapse whitespace runs (`" ".join(title.lower().split())`),
THEN strip to alphanumeric-and-whitespace, hash, truncate to 16 hex
characters. -/
def compute_content_hash (title : String) : String :=
  let normalized := String.intercalate " " (pySplit (pyLower title))
  let normalized := keepAlnumSpace normalized
  String.mk ((Sha256.hexDigest (strUtf8 normalized)).data.take 16)

/-- Modelled from the spec (§4.5 / claim C9): the fingerprint
normalization in the order the spec (and the code's own comment) state it —
lower-case, strip to alphanumeric-and-whitespace, THEN collapse runs of
whitespace. -/
def specNormalizeTitle (title : String) : String :=
  String.intercalate " " (pySplit (keepAlnumSpace (pyLower title)))

/-- The normalization order the code actually applies (collapse before
strip), for comparison. -/
def codeNormalizeTitle (title : String) : String :=
  keepAlnumSpace (String.intercalate " " (pySplit (pyLower title)))

/-- Two titles differ only by letter case and/or punctuation: removing
every character that is neither alphanumeric nor whitespace and
lower-casing makes them identical. -/
abbrev differOnlyByCasePunct (t1 t2 : String) : Prop :=
  keepAlnumSpace (pyLower t1) = keepAlnumSpace (pyLower t2)

/-- The Redis marker-key store, as the association list of `SET` keys and
values.  The 30-day TTL of `mark_as_processed` is not modelled: every
claim concerns a single processing run well inside the expiry window. -/
abbrev MarkerStore := List (String × String)

def MarkerStore.existsKey (st : MarkerStore) (k : String) : Bool :=
  st.any (fun p => p.1 == k)

def MarkerStore.set (st : MarkerStore) (k v : String) : MarkerStore := (k, v) :: st

/-- Translation of `is_duplicate` (run_agent_core.py lines 29–44): the
identity key is checked first, then the content-hash key. -/
def is_duplicate (st : MarkerStore) (doc : RawDocument) : Bool :=
  if st.existsKey ("processed:id:" ++ doc.id) then true
  else if st.existsKey ("processed:hash:" ++ compute_content_hash doc.title) then true
  else false

/-- Translation of `mark_as_processed` (run_agent_core.py lines 47–58):
both keys are written (with the same 30-day TTL, not modelled). -/
def mark_as_processed (st : MarkerStore) (doc : RawDocument) : MarkerStore :=
  let st := st.set ("processed:id:" ++ doc.id) "1"
  st.set ("processed:hash:" ++ compute_content_hash doc.title) doc.id

/-! ## Analysis validation gate and worker loop body —
`src/ai_safety_radar/scripts/run_agent_core.py` -/

/-- The fields of `threat_sig.model_dump()` that
`validate_analysis_result` reads.  A `ThreatSignature` dump has no
`description` key, so `analysis.get("description", "")` yields `""`. -/
structure AnalysisDict where
  attack_type : String
  affected_models : List String
  summary_tldr : String
  description : String
deriving DecidableEq

def ThreatSignature.toAnalysisDict (s : ThreatSignature) : AnalysisDict :=
  { attack_type := s.attack_type, affected_models := s.affected_models,
    summary_tldr := s.summary_tldr, description := "" }

/-- Bool substring test, `needle in hay` of Python. -/
def listContainsSub (needle : List Char) : List Char → Bool
  | [] => needle.isEmpty
  | a :: rest => needle.isPrefixOf (a :: rest) || listContainsSub needle rest

def strContainsSub (hay needle : String) : Bool := listContainsSub needle.data hay.data

def generic_placeholders : List String :=
  ["no specific attack mentioned", "generic machine learning system",
   "unspecified vulnerability"]

/-- Translation of `validate_analysis_result` (run_agent_core.py lines
60–88): require a truthy `attack_type`, a non-empty `affected_models`
list, a summary longer than 20 characters, and no generic placeholder
phrase as a substring of the lower-cased summary. -/
def validate_analysis_result (_paper_title : String) (analysis : AnalysisDict) : Bool :=
  let summary := if analysis.summary_tldr ≠ "" then analysis.summary_tldr
    else analysis.description
  if ¬(analysis.attack_type ≠ "" ∧ analysis.affected_models ≠ []
      ∧ 20 < summary.length) then false
  else if generic_placeholders.any (fun phrase => strContainsSub (pyLower summary) phrase) then false
  else true

/-- The decoded shape of one pending-stream entry, after the unwrap/parse
steps of the main loop: the `data` field fails to JSON-decode, or decodes
but fails `RawDocument` validation, or yields a document. -/
inductive PendingPayload where
  | badJson
  | badDoc
  | doc (d : RawDocument)
deriving DecidableEq

/-- The externally visible effects of processing one pending entry:
`acks` are the ids passed to `XACK papers:pending agent_group`, in order;
`analyzed_writes` are the signatures appended to `papers:analyzed`. -/
structure StepEffects where
  acks : List String
  analyzed_writes : List ThreatSignature
deriving DecidableEq

/-- Translation of the per-entry body of `main` (run_agent_core.py lines
417–530).  `msg_id` is the pending entry's id; `graphOut` is the
`threat_signature` field of the ingestion graph's final state (an upstream
oracle); `add_job_id` is the new entry id `add_job("papers:analyzed", ...)`
returns.  Branches, in source order: JSON-decode failure → ack and skip;
`RawDocument` validation failure → ack and skip; duplicate → ack and skip;
otherwise the graph result passes the validation gate or is demoted to
`None`; a surviving signature is written to `papers:analyzed` — and the
Python line 487 `msg_id = await redis_client.add_job(...)` REBINDS
`msg_id`, so the subsequent `xack` uses the analyzed-stream id, mirrored
here by the shadowing `let` — while a `None` result just marks the
document processed and acks. -/
def AgentCore.processEntry (store : MarkerStore) (msg_id : String)
    (payload : PendingPayload) (graphOut : Option ThreatSignature)
    (add_job_id : String) : StepEffects × MarkerStore :=
  match payload with
  | .badJson => ({ acks := [msg_id], analyzed_writes := [] }, store)
  | .badDoc => ({ acks := [msg_id], analyzed_writes := [] }, store)
  | .doc d =>
    if is_duplicate store d then ({ acks := [msg_id], analyzed_writes := [] }, store)
    else
      let threat_sig := match graphOut with
        | some s => if validate_analysis_result d.title s.toAnalysisDict then some s else none
        | none => none
      match threat_sig with
      | some s =>
          let msg_id := add_job_id
          let store := mark_as_processed store d
          ({ acks := [msg_id], analyzed_writes := [s] }, store)
      | none =>
          let store := mark_as_processed store d
          ({ acks := [msg_id], analyzed_writes := [] }, store)

/-! ## Theorems -/

/-- C4: whenever any kill-list term matches and fewer than 2 ML-anchor
matches are found, `MLSecurityFilter.evaluate` short-circuits to status
REJECT with score 0 and confidence 0.95, reporting only the kill-list
reason — regardless of the strong-AML, safety, ambiguous, or GenAI matches
also present. -/
theorem kill_list_short_circuit (m : RegexMatches)
    (hkill : m.kill_matches ≠ []) (hanch : m.ml_anchors.length < 2) :
    MLSecurityFilter.evaluate m =
      { status := .REJECT, score := 0,
        reasons := [.KILL_LIST m.kill_matches], confidence := 95/100 } := by
  simp [MLSecurityFilter.evaluate, hkill, hanch]

/-- Witness for `kill_list_short_circuit`: a battery-domain kill match with
one ML anchor and a strong-AML term also present. -/
theorem kill_list_short_circuit_witness :
    ((["battery fault"] : List String) ≠ [] ∧ (["llm"] : List String).length < 2) ∧
    MLSecurityFilter.evaluate ⟨["battery fault"], ["llm"], ["jailbreak"], ["alignment"], [], ["gpt"]⟩ =
      { status := .REJECT, score := 0,
        reasons := [.KILL_LIST ["battery fault"]], confidence := 95/100 } :=
  ⟨⟨by decide, by decide⟩,
    kill_list_short_circuit ⟨["battery fault"], ["llm"], ["jailbreak"], ["alignment"], [], ["gpt"]⟩
      (by decide) (by decide)⟩

/-- Every value `convert_severity` produces lies in 1–5. -/
theorem convert_severity_range (v : SeverityInput) :
    1 ≤ ThreatSignature.convert_severity v ∧ ThreatSignature.convert_severity v ≤ 5 := by
  cases v with
  | str s =>
      simp only [ThreatSignature.convert_severity]
      split_ifs <;> decide
  | int n =>
      simp only [ThreatSignature.convert_severity]
      split_ifs with h
      · exact h
      · decide
  | other => decide

/-- C6: the severity labels Critical/High/Medium/Low/Info normalize to
5/4/3/2/1 (case-insensitively), unrecognized strings and out-of-range
integers normalize to 1, and every successfully constructed
`ThreatSignature` carries an integer severity in 1–5. -/
theorem severity_round_trip :
    ThreatSignature.convert_severity (.str "Critical") = 5 ∧
    ThreatSignature.convert_severity (.str "High") = 4 ∧
    ThreatSignature.convert_severity (.str "Medium") = 3 ∧
    ThreatSignature.convert_severity (.str "Low") = 2 ∧
    ThreatSignature.convert_severity (.str "Info") = 1 ∧
    ThreatSignature.convert_severity (.str "CRITICAL") = 5 ∧
    (∀ s : String, pyLower s ∉ (["critical", "high", "medium", "low", "info"] : List String) →
      ThreatSignature.convert_severity (.str s) = 1) ∧
    (∀ n : Int, n < 1 ∨ 5 < n → ThreatSignature.convert_severity (.int n) = 1) ∧
    (∀ (title url : String) (pd : Timestamp) (rs : ℚ) (atk : String)
        (mo am : List String) (it : Bool) (sev : SeverityInput)
        (tldr det : String) (kf : List String) (mb cr : Option String)
        (src : String) (ts : ThreatSignature),
      ThreatSignature.make title url pd rs atk mo am it sev tldr det kf mb cr src = some ts →
      1 ≤ ts.severity ∧ ts.severity ≤ 5) := by
  refine ⟨by decide, by decide, by decide, by decide, by decide, by decide, ?_, ?_, ?_⟩
  · intro s hs
    have h1 : pyLower s ≠ "critical" := fun h => hs (by simp [h])
    have h2 : pyLower s ≠ "high" := fun h => hs (by simp [h])
    have h3 : pyLower s ≠ "medium" := fun h => hs (by simp [h])
    have h4 : pyLower s ≠ "low" := fun h => hs (by simp [h])
    have h5 : pyLower s ≠ "info" := fun h => hs (by simp [h])
    simp [ThreatSignature.convert_severity, h1, h2, h3, h4, h5]
  · intro n hn
    simp only [ThreatSignature.convert_severity]
    rw [if_neg (by omega)]
  · intro title url pd rs atk mo am it sev tldr det kf mb cr src ts hmk
    simp only [ThreatSignature.make] at hmk
    split at hmk
    · cases hmk
      exact convert_severity_range sev
    · cases hmk

/-- Witness for `severity_round_trip`: the hypotheses of its quantified
conjuncts discharged at an unrecognized label, an out-of-range integer and
a concrete successful construction. -/
theorem severity_round_trip_witness :
    (pyLower "Extreme" ∉ (["critical", "high", "medium", "low", "info"] : List String) ∧
      ThreatSignature.convert_severity (.str "Extreme") = 1) ∧
    ((7 : Int) < 1 ∨ 5 < (7 : Int)) ∧ ThreatSignature.convert_severity (.int 7) = 1 ∧
    (ThreatSignature.make "Universal Jailbreak" "https://arxiv.org/abs/1" 0 1
        "Jailbreak" ["Text"] ["GPT-4"] false (.str "Critical") "A working jailbreak prompt."
        "Details." [] none none "arxiv" =
      some { title := "Universal Jailbreak", url := "https://arxiv.org/abs/1",
             published_date := 0, relevance_score := 1, attack_type := "Jailbreak",
             modality := ["Text"], affected_models := ["GPT-4"], is_theoretical := false,
             severity := 5, summary_tldr := "A working jailbreak prompt.",
             summary_detailed := "Details.", key_findings := [], methodology_brief := none,
             code_repository := none, arxiv_category := "cs.AI", citation_count := some 0,
             source := "arxiv" }) ∧
    (1 : Int) ≤ 5 ∧ (5 : Int) ≤ 5 := by
  have hmk : ThreatSignature.make "Universal Jailbreak" "https://arxiv.org/abs/1" 0 1
      "Jailbreak" ["Text"] ["GPT-4"] false (.str "Critical") "A working jailbreak prompt."
      "Details." [] none none "arxiv" =
      some { title := "Universal Jailbreak", url := "https://arxiv.org/abs/1",
             published_date := 0, relevance_score := 1, attack_type := "Jailbreak",
             modality := ["Text"], affected_models := ["GPT-4"], is_theoretical := false,
             severity := 5, summary_tldr := "A working jailbreak prompt.",
             summary_detailed := "Details.", key_findings := [], methodology_brief := none,
             code_repository := none, arxiv_category := "cs.AI", citation_count := some 0,
             source := "arxiv" } := by decide
  refine ⟨⟨by decide, severity_round_trip.2.2.2.2.2.2.1 "Extreme" (by decide)⟩,
    Or.inr (by decide), severity_round_trip.2.2.2.2.2.2.2.1 7 (Or.inr (by decide)),
    hmk, ?_, ?_⟩
  · exact (severity_round_trip.2.2.2.2.2.2.2.2 _ _ _ _ _ _ _ _ _ _ _ _ _ _ _ _ hmk).1
  · exact (severity_round_trip.2.2.2.2.2.2.2.2 _ _ _ _ _ _ _ _ _ _ _ _ _ _ _ _ hmk).2

/-- C3: the two-stage filter issues no LLM call when the pre-filter score
is below the reject threshold (returning REJECT with the pre-filter's
confidence) or at/above the auto-accept threshold (returning ACCEPT), and
exactly one LLM call when the score lies strictly between the two
thresholds. -/
theorem two_stage_llm_call_policy (m : RegexMatches) (llm : Except String FilterResult) :
    ((MLSecurityFilter.evaluate m).score < Settings.filter_regex_threshold →
      (FilterAgent.analyze m llm).2 = 0 ∧
      (FilterAgent.analyze m llm).1.is_relevant = false ∧
      (FilterAgent.analyze m llm).1.confidence_score = (MLSecurityFilter.evaluate m).confidence) ∧
    (Settings.filter_auto_accept_threshold ≤ (MLSecurityFilter.evaluate m).score →
      (FilterAgent.analyze m llm).2 = 0 ∧
      (FilterAgent.analyze m llm).1.is_relevant = true ∧
      (FilterAgent.analyze m llm).1.confidence_score = (MLSecurityFilter.evaluate m).confidence) ∧
    (Settings.filter_regex_threshold < (MLSecurityFilter.evaluate m).score →
      (MLSecurityFilter.evaluate m).score < Settings.filter_auto_accept_threshold →
      (FilterAgent.analyze m llm).2 = 1) := by
  refine ⟨fun h => ?_, fun h => ?_, fun h1 h2 => ?_⟩
  · simp [FilterAgent.analyze, h]
  · have hn : ¬ (MLSecurityFilter.evaluate m).score < Settings.filter_regex_threshold := by
      simp only [Settings.filter_regex_threshold, Settings.filter_auto_accept_threshold] at h ⊢
      omega
    simp [FilterAgent.analyze, hn, h]
  · have hn : ¬ (MLSecurityFilter.evaluate m).score < Settings.filter_regex_threshold := by omega
    have hn2 : ¬ Settings.filter_auto_accept_threshold ≤ (MLSecurityFilter.evaluate m).score := by
      omega
    cases llm <;> simp [FilterAgent.analyze, hn, hn2]

/-- Witness for `two_stage_llm_call_policy`: a no-signal input (score 0,
rejected with no call), a strong+safety input (score 80, accepted with no
call), and a strong-only input (score 50, one LLM call). -/
theorem two_stage_llm_call_policy_witness :
    ((MLSecurityFilter.evaluate ⟨[], [], [], [], [], []⟩).score < Settings.filter_regex_threshold ∧
      (FilterAgent.analyze ⟨[], [], [], [], [], []⟩ (.error "boom")).2 = 0) ∧
    (Settings.filter_auto_accept_threshold ≤
        (MLSecurityFilter.evaluate ⟨[], [], ["jailbreak"], ["alignment"], [], []⟩).score ∧
      (FilterAgent.analyze ⟨[], [], ["jailbreak"], ["alignment"], [], []⟩ (.error "boom")).2 = 0) ∧
    (Settings.filter_regex_threshold <
        (MLSecurityFilter.evaluate ⟨[], [], ["jailbreak"], [], [], []⟩).score ∧
      (MLSecurityFilter.evaluate ⟨[], [], ["jailbreak"], [], [], []⟩).score <
        Settings.filter_auto_accept_threshold ∧
      (FilterAgent.analyze ⟨[], [], ["jailbreak"], [], [], []⟩ (.ok ⟨"ok", 1, true⟩)).2 = 1) :=
  ⟨⟨by decide, ((two_stage_llm_call_policy ⟨[], [], [], [], [], []⟩ (.error "boom")).1
      (by decide)).1⟩,
   ⟨by decide, ((two_stage_llm_call_policy ⟨[], [], ["jailbreak"], ["alignment"], [], []⟩
      (.error "boom")).2.1 (by decide)).1⟩,
   ⟨by decide, by decide,
    (two_stage_llm_call_policy ⟨[], [], ["jailbreak"], [], [], []⟩
      (.ok ⟨"ok", 1, true⟩)).2.2 (by decide) (by decide)⟩⟩

/-- C7: in the borderline band, a failing structured-extraction call is
not propagated — `analyze` is total and returns the pre-filter's
accept/reject decision with the pre-filter's confidence, embedding the
error message in the reasoning text. -/
theorem filter_llm_failure_fallback (m : RegexMatches) (e : String)
    (h1 : Settings.filter_regex_threshold ≤ (MLSecurityFilter.evaluate m).score)
    (h2 : (MLSecurityFilter.evaluate m).score < Settings.filter_auto_accept_threshold) :
    (FilterAgent.analyze m (.error e)).1.is_relevant
        = ((MLSecurityFilter.evaluate m).status == FilterStatus.ACCEPT) ∧
    (FilterAgent.analyze m (.error e)).1.confidence_score
        = (MLSecurityFilter.evaluate m).confidence ∧
    (FilterAgent.analyze m (.error e)).1.reasoning
        = ("LLM error, using pre-filter (score="
            ++ toString (MLSecurityFilter.evaluate m).score ++ "): ") ++ e ∧
    e.data <:+: (FilterAgent.analyze m (.error e)).1.reasoning.data := by
  have hn : ¬ (MLSecurityFilter.evaluate m).score < Settings.filter_regex_threshold := by omega
  have hn2 : ¬ Settings.filter_auto_accept_threshold ≤ (MLSecurityFilter.evaluate m).score := by
    omega
  have hr : (FilterAgent.analyze m (.error e)).1.reasoning
      = ("LLM error, using pre-filter (score="
          ++ toString (MLSecurityFilter.evaluate m).score ++ "): ") ++ e := by
    simp [FilterAgent.analyze, hn, hn2]
  refine ⟨by simp [FilterAgent.analyze, hn, hn2],
    by simp [FilterAgent.analyze, hn, hn2], hr, ?_⟩
  rw [hr]
  refine ⟨("LLM error, using pre-filter (score="
      ++ toString (MLSecurityFilter.evaluate m).score ++ "): ").data, [], ?_⟩
  simp

/-- Witness for `filter_llm_failure_fallback`: a borderline input (score
50) with a timed-out LLM call. -/
theorem filter_llm_failure_fallback_witness :
    (Settings.filter_regex_threshold ≤
        (MLSecurityFilter.evaluate ⟨[], [], ["jailbreak"], [], [], []⟩).score ∧
      (MLSecurityFilter.evaluate ⟨[], [], ["jailbreak"], [], [], []⟩).score <
        Settings.filter_auto_accept_threshold) ∧
    (FilterAgent.analyze ⟨[], [], ["jailbreak"], [], [], []⟩ (.error "timeout")).1.is_relevant
        = ((MLSecurityFilter.evaluate ⟨[], [], ["jailbreak"], [], [], []⟩).status
            == FilterStatus.ACCEPT) ∧
    "timeout".data <:+:
      (FilterAgent.analyze ⟨[], [], ["jailbreak"], [], [], []⟩ (.error "timeout")).1.reasoning.data :=
  ⟨⟨by decide, by decide⟩,
    (filter_llm_failure_fallback ⟨[], [], ["jailbreak"], [], [], []⟩ "timeout"
      (by decide) (by decide)).1,
    (filter_llm_failure_fallback ⟨[], [], ["jailbreak"], [], [], []⟩ "timeout"
      (by decide) (by decide)).2.2.2⟩

/-- Outside the kill-list short-circuit, the code's score equals the
reference computation keyed on ML-anchor occurrences. -/
theorem evaluate_score_eq_occurrences (m : RegexMatches)
    (h : ¬(m.kill_matches ≠ [] ∧ m.ml_anchors.length < 2)) :
    (MLSecurityFilter.evaluate m).score = preFilterSpecScoreOccurrences m := by
  simp only [MLSecurityFilter.evaluate, preFilterSpecScoreOccurrences]
  rw [if_neg h]
  dsimp only
  split_ifs <;> omega

/-- Outside the kill-list short-circuit, the decision is ACCEPT exactly on
scores of at least 50. -/
theorem evaluate_status_eq (m : RegexMatches)
    (h : ¬(m.kill_matches ≠ [] ∧ m.ml_anchors.length < 2)) :
    (MLSecurityFilter.evaluate m).status =
      if 50 ≤ (MLSecurityFilter.evaluate m).score then FilterStatus.ACCEPT
      else FilterStatus.REJECT := by
  simp only [MLSecurityFilter.evaluate]
  rw [if_neg h]

/-- Outside the kill-list short-circuit, the confidence is
`min(score / 100, 0.99)`. -/
theorem evaluate_confidence_eq (m : RegexMatches)
    (h : ¬(m.kill_matches ≠ [] ∧ m.ml_anchors.length < 2)) :
    (MLSecurityFilter.evaluate m).confidence =
      min (((MLSecurityFilter.evaluate m).score : ℚ) / 100) (99/100) := by
  simp only [MLSecurityFilter.evaluate]
  rw [if_neg h]

/-- C5 counterexample: on a text whose ML-anchor pattern matches the same
term three times (one distinct term), the code adds the +10 foundation
bonus but the reference computation with "≥3 distinct ML-anchor terms"
does not, so the claimed equality fails. -/
theorem prefilter_distinct_bonus_counterexample :
    ¬ ((⟨[], ["llm", "llm", "llm"], [], [], [], []⟩ : RegexMatches).kill_matches ≠ [] ∧
        (⟨[], ["llm", "llm", "llm"], [], [], [], []⟩ : RegexMatches).ml_anchors.length < 2) ∧
    (MLSecurityFilter.evaluate ⟨[], ["llm", "llm", "llm"], [], [], [], []⟩).score
      ≠ preFilterSpecScoreDistinct ⟨[], ["llm", "llm", "llm"], [], [], [], []⟩ := by
  decide

/-- C5 (amended): for inputs not rejected by the kill-list rule, the
pre-filter result equals the reference computation in which the flat +10 is
keyed on at least 3 ML-anchor matches counted with multiplicity
(occurrences, not distinct terms): decision ACCEPT iff score ≥ 50 and
confidence `min(score / 100, 0.99)`. -/
theorem prefilter_reference_score_occurrences (m : RegexMatches)
    (h : ¬(m.kill_matches ≠ [] ∧ m.ml_anchors.length < 2)) :
    (MLSecurityFilter.evaluate m).score = preFilterSpecScoreOccurrences m ∧
    ((MLSecurityFilter.evaluate m).status = FilterStatus.ACCEPT ↔
      50 ≤ preFilterSpecScoreOccurrences m) ∧
    (MLSecurityFilter.evaluate m).confidence
      = min ((preFilterSpecScoreOccurrences m : ℚ) / 100) (99/100) := by
  have hs := evaluate_score_eq_occurrences m h
  refine ⟨hs, ?_, ?_⟩
  · rw [evaluate_status_eq m h, hs]
    split_ifs with h50 <;> simp [h50]
  · rw [evaluate_confidence_eq m h, hs]

/-- Witness for `prefilter_reference_score_occurrences`: an input
exercising the strong, safety, ambiguous, GenAI and foundation rules
(score (50+30+20)·1.3+10 = 140). -/
theorem prefilter_reference_score_occurrences_witness :
    (¬ ((⟨[], ["llm", "transformer", "gradient"], ["jailbreak"], ["alignment"],
          ["backdoor"], ["gpt"]⟩ : RegexMatches).kill_matches ≠ [] ∧
        (⟨[], ["llm", "transformer", "gradient"], ["jailbreak"], ["alignment"],
          ["backdoor"], ["gpt"]⟩ : RegexMatches).ml_anchors.length < 2)) ∧
    (MLSecurityFilter.evaluate ⟨[], ["llm", "transformer", "gradient"], ["jailbreak"],
        ["alignment"], ["backdoor"], ["gpt"]⟩).score
      = preFilterSpecScoreOccurrences ⟨[], ["llm", "transformer", "gradient"], ["jailbreak"],
        ["alignment"], ["backdoor"], ["gpt"]⟩ ∧
    ((MLSecurityFilter.evaluate ⟨[], ["llm", "transformer", "gradient"], ["jailbreak"],
        ["alignment"], ["backdoor"], ["gpt"]⟩).status = FilterStatus.ACCEPT ↔
      50 ≤ preFilterSpecScoreOccurrences ⟨[], ["llm", "transformer", "gradient"], ["jailbreak"],
        ["alignment"], ["backdoor"], ["gpt"]⟩) :=
  ⟨by decide,
    (prefilter_reference_score_occurrences ⟨[], ["llm", "transformer", "gradient"],
      ["jailbreak"], ["alignment"], ["backdoor"], ["gpt"]⟩ (by decide)).1,
    (prefilter_reference_score_occurrences ⟨[], ["llm", "transformer", "gradient"],
      ["jailbreak"], ["alignment"], ["backdoor"], ["gpt"]⟩ (by decide)).2.1⟩

/-- Unfolding: an approving critique ends the loop with the current draft
approved. -/
theorem critiqueLoop_approved (critic : CriticOracle)
    (rev : DailyBriefing → String → DailyBriefing) (callIdx retry : Nat)
    (cur : DailyBriefing) (h : (critic.critique callIdx cur).is_approved = true) :
    EditorialGraph.critiqueLoop critic rev callIdx retry cur =
      { final_output := some cur, current_briefing := cur,
        critique_calls := 1, last_critique := critic.critique callIdx cur } := by
  rw [EditorialGraph.critiqueLoop]
  simp [h]

/-- Unfolding: a rejection with the retry budget exhausted ends the loop
with no approved output. -/
theorem critiqueLoop_maxed (critic : CriticOracle)
    (rev : DailyBriefing → String → DailyBriefing) (callIdx retry : Nat)
    (cur : DailyBriefing) (h : ¬(critic.critique callIdx cur).is_approved = true)
    (h2 : EditorialGraph.MAX_RETRIES ≤ retry) :
    EditorialGraph.critiqueLoop critic rev callIdx retry cur =
      { final_output := none, current_briefing := cur,
        critique_calls := 1, last_critique := critic.critique callIdx cur } := by
  rw [EditorialGraph.critiqueLoop]
  simp [h, h2]

/-- Unfolding: a rejection with budget remaining revises and re-enters the
critique node. -/
theorem critiqueLoop_rejected (critic : CriticOracle)
    (rev : DailyBriefing → String → DailyBriefing) (callIdx retry : Nat)
    (cur : DailyBriefing) (h : ¬(critic.critique callIdx cur).is_approved = true)
    (h2 : ¬ EditorialGraph.MAX_RETRIES ≤ retry) :
    EditorialGraph.critiqueLoop critic rev callIdx retry cur =
      { EditorialGraph.critiqueLoop critic rev (callIdx + 1) (retry + 1)
          (rev cur (critic.critique callIdx cur).feedback) with
        critique_calls := (EditorialGraph.critiqueLoop critic rev (callIdx + 1) (retry + 1)
          (rev cur (critic.critique callIdx cur).feedback)).critique_calls + 1 } := by
  rw [EditorialGraph.critiqueLoop]
  simp [h, h2]

/-- Behaviour of the critique/revise loop: at least one and at most
`MAX_RETRIES + 1 - retry_count` critique calls; the last critique is the
critic's verdict on the returned draft; approval fixes `final_output` to
that draft; a final rejection happens only with the retry budget
exhausted. -/
theorem critiqueLoop_spec (critic : CriticOracle)
    (rev : DailyBriefing → String → DailyBriefing) :
    ∀ (fuel callIdx retry : Nat) (cur : DailyBriefing),
      EditorialGraph.MAX_RETRIES + 1 - retry ≤ fuel →
      retry ≤ EditorialGraph.MAX_RETRIES →
      1 ≤ (EditorialGraph.critiqueLoop critic rev callIdx retry cur).critique_calls ∧
      retry + (EditorialGraph.critiqueLoop critic rev callIdx retry cur).critique_calls
        ≤ EditorialGraph.MAX_RETRIES + 1 ∧
      (EditorialGraph.critiqueLoop critic rev callIdx retry cur).last_critique
        = critic.critique
            (callIdx +
              ((EditorialGraph.critiqueLoop critic rev callIdx retry cur).critique_calls - 1))
            (EditorialGraph.critiqueLoop critic rev callIdx retry cur).current_briefing ∧
      ((EditorialGraph.critiqueLoop critic rev callIdx retry cur).last_critique.is_approved = true →
        (EditorialGraph.critiqueLoop critic rev callIdx retry cur).final_output
          = some (EditorialGraph.critiqueLoop critic rev callIdx retry cur).current_briefing) ∧
      ((EditorialGraph.critiqueLoop critic rev callIdx retry cur).last_critique.is_approved = false →
        (EditorialGraph.critiqueLoop critic rev callIdx retry cur).final_output = none ∧
        retry + (EditorialGraph.critiqueLoop critic rev callIdx retry cur).critique_calls
          = EditorialGraph.MAX_RETRIES + 1) := by
  intro fuel
  induction fuel with
  | zero =>
      intro callIdx retry cur hf hr
      exfalso
      omega
  | succ n ih =>
      intro callIdx retry cur hf hr
      by_cases happ : (critic.critique callIdx cur).is_approved = true
      · rw [critiqueLoop_approved critic rev callIdx retry cur happ]
        refine ⟨by simp, by simp; omega, by simp, fun _ => rfl, ?_⟩
        intro hfalse
        simp [happ] at hfalse
      · by_cases hmax : EditorialGraph.MAX_RETRIES ≤ retry
        · have hretry : retry = EditorialGraph.MAX_RETRIES := le_antisymm hr hmax
          rw [critiqueLoop_maxed critic rev callIdx retry cur happ hmax]
          refine ⟨by simp, by simp; omega, by simp, ?_, ?_⟩
          · intro htrue
            simp at htrue
            exact absurd htrue happ
          · intro _
            refine ⟨rfl, ?_⟩
            simp
            omega
        · have hrec := ih (callIdx + 1) (retry + 1)
            (rev cur (critic.critique callIdx cur).feedback)
            (by omega) (by omega)
          obtain ⟨hc1, hc2, hc3, hc4, hc5⟩ := hrec
          rw [critiqueLoop_rejected critic rev callIdx retry cur happ hmax]
          refine ⟨by simp, by simp; omega, ?_, ?_, ?_⟩
          · dsimp only
            have hidx : callIdx +
                ((EditorialGraph.critiqueLoop critic rev (callIdx + 1) (retry + 1)
                  (rev cur (critic.critique callIdx cur).feedback)).critique_calls + 1 - 1)
                = (callIdx + 1) +
                  ((EditorialGraph.critiqueLoop critic rev (callIdx + 1) (retry + 1)
                    (rev cur (critic.critique callIdx cur).feedback)).critique_calls - 1) := by
              omega
            rw [hidx]
            exact hc3
          · intro htrue
            dsimp only at htrue ⊢
            exact hc4 htrue
          · intro hfalse
            dsimp only at hfalse ⊢
            obtain ⟨ho, hcount⟩ := hc5 hfalse
            exact ⟨ho, by omega⟩

/-- C1: for every batch and every critic/curator behaviour (including an
always-rejecting critic), one editorial run terminates (the loop is a
total function with measure `MAX_RETRIES + 1 - retry_count`), makes
between 1 and `MAX_RETRIES + 1 = 4` critique calls, and returns a non-null
briefing — the approved draft when the critic approves (the last critique
is the critic's verdict on the returned draft), or the last rejected draft
once the retry budget is exhausted. -/
theorem editorial_run_bounded_and_nonnull (curator : CuratorOracle)
    (critic : CriticOracle) (threats : List ThreatSignature) (_hne : threats ≠ []) :
    (EditorialGraph.run curator critic threats).1
        = some (EditorialGraph.run curator critic threats).2.current_briefing ∧
    1 ≤ (EditorialGraph.run curator critic threats).2.critique_calls ∧
    (EditorialGraph.run curator critic threats).2.critique_calls
        ≤ EditorialGraph.MAX_RETRIES + 1 ∧
    (EditorialGraph.run curator critic threats).2.last_critique
        = critic.critique ((EditorialGraph.run curator critic threats).2.critique_calls - 1)
            (EditorialGraph.run curator critic threats).2.current_briefing ∧
    ((EditorialGraph.run curator critic threats).2.last_critique.is_approved = true →
      (EditorialGraph.run curator critic threats).2.final_output
        = some (EditorialGraph.run curator critic threats).2.current_briefing) ∧
    ((EditorialGraph.run curator critic threats).2.last_critique.is_approved = false →
      (EditorialGraph.run curator critic threats).2.final_output = none ∧
      (EditorialGraph.run curator critic threats).2.critique_calls
        = EditorialGraph.MAX_RETRIES + 1) := by
  obtain ⟨hc1, hc2, hc3, hc4, hc5⟩ := critiqueLoop_spec critic curator.reviseResult
    (EditorialGraph.MAX_RETRIES + 1) 0 0 (CuratorAgent.draft_briefing curator threats)
    (by omega) (by omega)
  have hrun2 : (EditorialGraph.run curator critic threats).2
      = EditorialGraph.critiqueLoop critic curator.reviseResult 0 0
          (CuratorAgent.draft_briefing curator threats) := rfl
  have hrun1 : (EditorialGraph.run curator critic threats).1
      = match (EditorialGraph.critiqueLoop critic curator.reviseResult 0 0
            (CuratorAgent.draft_briefing curator threats)).final_output with
        | some b => some b
        | none => some (EditorialGraph.critiqueLoop critic curator.reviseResult 0 0
            (CuratorAgent.draft_briefing curator threats)).current_briefing := rfl
  rw [hrun1, hrun2]
  refine ⟨?_, hc1, by omega, by simpa using hc3, hc4,
    fun hfalse => ⟨(hc5 hfalse).1, by have := (hc5 hfalse).2; omega⟩⟩
  cases hB : (EditorialGraph.critiqueLoop critic curator.reviseResult 0 0
      (CuratorAgent.draft_briefing curator threats)).last_critique.is_approved with
  | true => rw [hc4 hB]
  | false => rw [(hc5 hB).1]

/-- Witness for `editorial_run_bounded_and_nonnull`: a one-threat batch, a
constant curator and a critic that rejects every draft. -/
theorem editorial_run_bounded_and_nonnull_witness :
    (([⟨"Universal Jailbreak", "https://arxiv.org/abs/1", 0, 1, "Jailbreak", ["Text"],
        ["GPT-4"], false, 5, "A working jailbreak prompt.", "Details.", [], none, none,
        "cs.AI", some 0, "arxiv"⟩] : List ThreatSignature) ≠ []) ∧
    (EditorialGraph.run ⟨⟨"md", [], "headline"⟩, fun b _ => b⟩
        ⟨fun _ _ => ⟨false, "inaccurate", 2⟩⟩
        [⟨"Universal Jailbreak", "https://arxiv.org/abs/1", 0, 1, "Jailbreak", ["Text"],
          ["GPT-4"], false, 5, "A working jailbreak prompt.", "Details.", [], none, none,
          "cs.AI", some 0, "arxiv"⟩]).1
      = some (EditorialGraph.run ⟨⟨"md", [], "headline"⟩, fun b _ => b⟩
        ⟨fun _ _ => ⟨false, "inaccurate", 2⟩⟩
        [⟨"Universal Jailbreak", "https://arxiv.org/abs/1", 0, 1, "Jailbreak", ["Text"],
          ["GPT-4"], false, 5, "A working jailbreak prompt.", "Details.", [], none, none,
          "cs.AI", some 0, "arxiv"⟩]).2.current_briefing ∧
    (EditorialGraph.run ⟨⟨"md", [], "headline"⟩, fun b _ => b⟩
        ⟨fun _ _ => ⟨false, "inaccurate", 2⟩⟩
        [⟨"Universal Jailbreak", "https://arxiv.org/abs/1", 0, 1, "Jailbreak", ["Text"],
          ["GPT-4"], false, 5, "A working jailbreak prompt.", "Details.", [], none, none,
          "cs.AI", some 0, "arxiv"⟩]).2.critique_calls ≤ EditorialGraph.MAX_RETRIES + 1 :=
  ⟨by simp,
    (editorial_run_bounded_and_nonnull ⟨⟨"md", [], "headline"⟩, fun b _ => b⟩
      ⟨fun _ _ => ⟨false, "inaccurate", 2⟩⟩ _ (by simp)).1,
    (editorial_run_bounded_and_nonnull ⟨⟨"md", [], "headline"⟩, fun b _ => b⟩
      ⟨fun _ _ => ⟨false, "inaccurate", 2⟩⟩ _ (by simp)).2.2.1⟩

/-- C8: `ExtractionAgent.process` returns `none` on empty document
content, on a failed structured-extraction call, and on a failed
`ThreatSignature` construction; when it returns a signature, `url`,
`published_date` and `source` are copied from the input document (never
from the model output) and the remaining fields come from the model
output. -/
theorem extraction_process_spec (doc : RawDocument)
    (llm : Except String ExtractionResult) :
    (doc.content = "" → ExtractionAgent.process doc llm = none) ∧
    (∀ e, llm = .error e → ExtractionAgent.process doc llm = none) ∧
    (∀ ext, llm = .ok ext →
      ThreatSignature.make ext.title doc.url doc.published_date ext.relevance_score
        ext.attack_type ext.modality ext.affected_models ext.is_theoretical
        (.str ext.severity) ext.summary_tldr ext.summary_detailed ext.key_findings
        ext.methodology_brief ext.code_repository doc.source = none →
      ExtractionAgent.process doc llm = none) ∧
    (∀ ts, ExtractionAgent.process doc llm = some ts →
      ts.url = doc.url ∧ ts.published_date = doc.published_date ∧ ts.source = doc.source ∧
      ∃ ext, llm = .ok ext ∧
        ts.title = ext.title ∧ ts.relevance_score = ext.relevance_score ∧
        ts.attack_type = ext.attack_type ∧ ts.modality = ext.modality ∧
        ts.affected_models = ext.affected_models ∧ ts.is_theoretical = ext.is_theoretical ∧
        ts.severity = ThreatSignature.convert_severity (.str ext.severity) ∧
        ts.summary_tldr = ext.summary_tldr ∧ ts.summary_detailed = ext.summary_detailed ∧
        ts.key_findings = ext.key_findings ∧ ts.methodology_brief = ext.methodology_brief ∧
        ts.code_repository = ext.code_repository) := by
  refine ⟨fun h => by simp [ExtractionAgent.process, h], fun e he => ?_, fun ext hok hmk => ?_,
    fun ts hts => ?_⟩
  · subst he
    simp [ExtractionAgent.process]
  · subst hok
    by_cases h : doc.content = ""
    · simp [ExtractionAgent.process, h]
    · simp [ExtractionAgent.process, h, hmk]
  · by_cases h : doc.content = ""
    · simp [ExtractionAgent.process, h] at hts
    · cases llm with
      | error e => simp [ExtractionAgent.process, h] at hts
      | ok ext =>
          refine ⟨?_, ?_, ?_, ext, rfl, ?_⟩
          all_goals
            simp only [ExtractionAgent.process, if_neg h] at hts
            simp only [ThreatSignature.make] at hts
            split at hts
            · cases hts
              simp
            · cases hts

/-- Witness for `extraction_process_spec`: an empty-content document
returning `none`, and a successful extraction whose identity fields come
from the document. -/
theorem extraction_process_spec_witness :
    ((⟨"arxiv:9", "Empty", "https://arxiv.org/abs/9", "", "arxiv", 0⟩ : RawDocument).content
        = "" ∧
      ExtractionAgent.process ⟨"arxiv:9", "Empty", "https://arxiv.org/abs/9", "", "arxiv", 0⟩
        (.error "timeout") = none) ∧
    ExtractionAgent.process
        ⟨"arxiv:2", "ingested title", "https://arxiv.org/abs/2", "full text", "arxiv", 7⟩
        (.ok ⟨"Universal Jailbreak", 1, "Jailbreak", ["Text"], ["GPT-4"], false, "High",
          "A working jailbreak prompt.", "Details.", [], none, none⟩)
      = some ⟨"Universal Jailbreak", "https://arxiv.org/abs/2", 7, 1, "Jailbreak", ["Text"],
          ["GPT-4"], false, 4, "A working jailbreak prompt.", "Details.", [], none, none,
          "cs.AI", some 0, "arxiv"⟩ ∧
    (⟨"Universal Jailbreak", "https://arxiv.org/abs/2", 7, 1, "Jailbreak", ["Text"],
        ["GPT-4"], false, 4, "A working jailbreak prompt.", "Details.", [], none, none,
        "cs.AI", some 0, "arxiv"⟩ : ThreatSignature).url
      = (⟨"arxiv:2", "ingested title", "https://arxiv.org/abs/2", "full text", "arxiv",
          7⟩ : RawDocument).url ∧
    (⟨"Universal Jailbreak", "https://arxiv.org/abs/2", 7, 1, "Jailbreak", ["Text"],
        ["GPT-4"], false, 4, "A working jailbreak prompt.", "Details.", [], none, none,
        "cs.AI", some 0, "arxiv"⟩ : ThreatSignature).published_date
      = (⟨"arxiv:2", "ingested title", "https://arxiv.org/abs/2", "full text", "arxiv",
          7⟩ : RawDocument).published_date := by
  have hp : ExtractionAgent.process
      ⟨"arxiv:2", "ingested title", "https://arxiv.org/abs/2", "full text", "arxiv", 7⟩
      (.ok ⟨"Universal Jailbreak", 1, "Jailbreak", ["Text"], ["GPT-4"], false, "High",
        "A working jailbreak prompt.", "Details.", [], none, none⟩)
      = some ⟨"Universal Jailbreak", "https://arxiv.org/abs/2", 7, 1, "Jailbreak", ["Text"],
          ["GPT-4"], false, 4, "A working jailbreak prompt.", "Details.", [], none, none,
          "cs.AI", some 0, "arxiv"⟩ := by decide
  refine ⟨⟨rfl, (extraction_process_spec _ _).1 rfl⟩, hp, ?_, ?_⟩
  · exact ((extraction_process_spec _ _).2.2.2 _ hp).1
  · exact ((extraction_process_spec _ _).2.2.2 _ hp).2.1

/-- The validation gate on a `ThreatSignature` dump holds exactly when
`attack_type` is non-empty, `affected_models` is non-empty, the tldr
summary is longer than 20 characters, and no generic placeholder phrase
occurs in the lower-cased summary. -/
theorem validate_toAnalysisDict_iff (t : String) (sig : ThreatSignature) :
    validate_analysis_result t sig.toAnalysisDict = true ↔
      (sig.attack_type ≠ "" ∧ sig.affected_models ≠ [] ∧ 20 < sig.summary_tldr.length ∧
        ∀ phrase ∈ generic_placeholders,
          strContainsSub (pyLower sig.summary_tldr) phrase = false) := by
  have hsum : (if sig.summary_tldr ≠ "" then sig.summary_tldr else "") = sig.summary_tldr := by
    split_ifs with h
    · rfl
    · simp only [ne_eq, not_not] at h
      rw [h]
  simp only [validate_analysis_result, ThreatSignature.toAnalysisDict, hsum]
  by_cases hreq : sig.attack_type ≠ "" ∧ sig.affected_models ≠ [] ∧
      20 < sig.summary_tldr.length
  · rw [if_neg (not_not.mpr hreq)]
    by_cases hany : (generic_placeholders.any fun phrase =>
        strContainsSub (pyLower sig.summary_tldr) phrase) = true
    · rw [if_pos hany]
      refine iff_of_false (by simp) ?_
      intro hg
      obtain ⟨phrase, hmem, hcontains⟩ := List.any_eq_true.mp hany
      rw [hg.2.2.2 phrase hmem] at hcontains
      cases hcontains
    · rw [if_neg hany]
      refine iff_of_true rfl ?_
      refine ⟨hreq.1, hreq.2.1, hreq.2.2, fun phrase hmem => ?_⟩
      rw [Bool.eq_false_iff]
      intro hT
      exact hany (List.any_eq_true.mpr ⟨phrase, hmem, hT⟩)
  · rw [if_pos hreq]
    refine iff_of_false (by simp) ?_
    intro hg
    exact hreq ⟨hg.1, hg.2.1, hg.2.2.1⟩

/-- C10: a signature produced by the graph for a fresh (non-duplicate)
document is appended to the analyzed stream exactly when it passes the
validation gate — `attack_type` non-empty, `affected_models` non-empty,
tldr summary longer than 20 characters, no generic placeholder phrase in
the summary; a failing signature is treated as irrelevant: nothing is
written, the document is marked processed, and the entry is acknowledged. -/
theorem analysis_validation_gate (store : MarkerStore) (d : RawDocument)
    (sig : ThreatSignature) (msg_id add_job_id : String)
    (hdup : is_duplicate store d = false) :
    ((AgentCore.processEntry store msg_id (.doc d) (some sig) add_job_id).1.analyzed_writes
        = [sig] ↔
      (sig.attack_type ≠ "" ∧ sig.affected_models ≠ [] ∧ 20 < sig.summary_tldr.length ∧
        ∀ phrase ∈ generic_placeholders,
          strContainsSub (pyLower sig.summary_tldr) phrase = false)) ∧
    (¬(sig.attack_type ≠ "" ∧ sig.affected_models ≠ [] ∧ 20 < sig.summary_tldr.length ∧
        ∀ phrase ∈ generic_placeholders,
          strContainsSub (pyLower sig.summary_tldr) phrase = false) →
      (AgentCore.processEntry store msg_id (.doc d) (some sig) add_job_id).1.analyzed_writes
          = [] ∧
      (AgentCore.processEntry store msg_id (.doc d) (some sig) add_job_id).2
          = mark_as_processed store d ∧
      (AgentCore.processEntry store msg_id (.doc d) (some sig) add_job_id).1.acks
          = [msg_id]) := by
  have hv := validate_toAnalysisDict_iff d.title sig
  by_cases hval : validate_analysis_result d.title sig.toAnalysisDict = true
  · have hgate := hv.mp hval
    simp [AgentCore.processEntry, hdup, hval, hgate]
    exact hgate.2.2.2
  · have hgate : ¬(sig.attack_type ≠ "" ∧ sig.affected_models ≠ [] ∧
        20 < sig.summary_tldr.length ∧
        ∀ phrase ∈ generic_placeholders,
          strContainsSub (pyLower sig.summary_tldr) phrase = false) :=
      fun hg => hval (hv.mpr hg)
    simp [AgentCore.processEntry, hdup, hval, hgate]

/-- Witness for `analysis_validation_gate`: a fresh document whose
signature passes the gate and is written, and one whose 6-character
summary fails the gate and is dropped with the document marked. -/
theorem analysis_validation_gate_witness :
    is_duplicate [] ⟨"arxiv:3", "Fresh Title", "https://arxiv.org/abs/3", "text", "arxiv", 0⟩
        = false ∧
    (AgentCore.processEntry [] "1-1"
        (.doc ⟨"arxiv:3", "Fresh Title", "https://arxiv.org/abs/3", "text", "arxiv", 0⟩)
        (some ⟨"Universal Jailbreak", "https://arxiv.org/abs/3", 0, 1, "Jailbreak", ["Text"],
          ["GPT-4"], false, 5, "A working jailbreak prompt.", "Details.", [], none, none,
          "cs.AI", some 0, "arxiv"⟩) "2-1").1.analyzed_writes
      = [⟨"Universal Jailbreak", "https://arxiv.org/abs/3", 0, 1, "Jailbreak", ["Text"],
          ["GPT-4"], false, 5, "A working jailbreak prompt.", "Details.", [], none, none,
          "cs.AI", some 0, "arxiv"⟩] ∧
    (AgentCore.processEntry [] "1-1"
        (.doc ⟨"arxiv:3", "Fresh Title", "https://arxiv.org/abs/3", "text", "arxiv", 0⟩)
        (some ⟨"Universal Jailbreak", "https://arxiv.org/abs/3", 0, 1, "Jailbreak", ["Text"],
          ["GPT-4"], false, 5, "Short.", "Details.", [], none, none,
          "cs.AI", some 0, "arxiv"⟩) "2-1").1.analyzed_writes = [] ∧
    (AgentCore.processEntry [] "1-1"
        (.doc ⟨"arxiv:3", "Fresh Title", "https://arxiv.org/abs/3", "text", "arxiv", 0⟩)
        (some ⟨"Universal Jailbreak", "https://arxiv.org/abs/3", 0, 1, "Jailbreak", ["Text"],
          ["GPT-4"], false, 5, "Short.", "Details.", [], none, none,
          "cs.AI", some 0, "arxiv"⟩) "2-1").1.acks = ["1-1"] := by
  have hdup : is_duplicate []
      ⟨"arxiv:3", "Fresh Title", "https://arxiv.org/abs/3", "text", "arxiv", 0⟩ = false := by
    decide
  have hgood : ((⟨"Universal Jailbreak", "https://arxiv.org/abs/3", 0, 1, "Jailbreak", ["Text"],
      ["GPT-4"], false, 5, "A working jailbreak prompt.", "Details.", [], none, none,
      "cs.AI", some 0, "arxiv"⟩ : ThreatSignature).attack_type ≠ "" ∧
      (⟨"Universal Jailbreak", "https://arxiv.org/abs/3", 0, 1, "Jailbreak", ["Text"],
        ["GPT-4"], false, 5, "A working jailbreak prompt.", "Details.", [], none, none,
        "cs.AI", some 0, "arxiv"⟩ : ThreatSignature).affected_models ≠ [] ∧
      20 < (⟨"Universal Jailbreak", "https://arxiv.org/abs/3", 0, 1, "Jailbreak", ["Text"],
        ["GPT-4"], false, 5, "A working jailbreak prompt.", "Details.", [], none, none,
        "cs.AI", some 0, "arxiv"⟩ : ThreatSignature).summary_tldr.length ∧
      ∀ phrase ∈ generic_placeholders,
        strContainsSub (pyLower (⟨"Universal Jailbreak", "https://arxiv.org/abs/3", 0, 1,
          "Jailbreak", ["Text"], ["GPT-4"], false, 5, "A working jailbreak prompt.",
          "Details.", [], none, none, "cs.AI", some 0,
          "arxiv"⟩ : ThreatSignature).summary_tldr) phrase = false) := by
    decide
  have hbad : ¬ ((⟨"Universal Jailbreak", "https://arxiv.org/abs/3", 0, 1, "Jailbreak", ["Text"],
      ["GPT-4"], false, 5, "Short.", "Details.", [], none, none,
      "cs.AI", some 0, "arxiv"⟩ : ThreatSignature).attack_type ≠ "" ∧
      (⟨"Universal Jailbreak", "https://arxiv.org/abs/3", 0, 1, "Jailbreak", ["Text"],
        ["GPT-4"], false, 5, "Short.", "Details.", [], none, none,
        "cs.AI", some 0, "arxiv"⟩ : ThreatSignature).affected_models ≠ [] ∧
      20 < (⟨"Universal Jailbreak", "https://arxiv.org/abs/3", 0, 1, "Jailbreak", ["Text"],
        ["GPT-4"], false, 5, "Short.", "Details.", [], none, none,
        "cs.AI", some 0, "arxiv"⟩ : ThreatSignature).summary_tldr.length ∧
      ∀ phrase ∈ generic_placeholders,
        strContainsSub (pyLower (⟨"Universal Jailbreak", "https://arxiv.org/abs/3", 0, 1,
          "Jailbreak", ["Text"], ["GPT-4"], false, 5, "Short.",
          "Details.", [], none, none, "cs.AI", some 0,
          "arxiv"⟩ : ThreatSignature).summary_tldr) phrase = false) := by
    decide
  refine ⟨hdup, (analysis_validation_gate _ _ _ _ _ hdup).1.mpr hgood, ?_, ?_⟩
  · exact ((analysis_validation_gate _ _ _ _ _ hdup).2 hbad).1
  · exact ((analysis_validation_gate _ _ _ _ _ hdup).2 hbad).2.2

set_option maxRecDepth 40000 in
/-- C2 fails on the success path: line 487 of run_agent_core.py rebinds
`msg_id` to the id `add_job("papers:analyzed", ...)` returned, so the
`xack` that follows acknowledges the analyzed-stream id (here "2-1"), not
the pending entry "1-1", which stays in the consumer group's in-flight
list.  The malformed, irrelevant and duplicate paths do acknowledge the
pending entry. -/
theorem worker_ack_divergence_on_success :
    (AgentCore.processEntry [] "1-1"
        (.doc ⟨"arxiv:3", "Fresh Title", "https://arxiv.org/abs/3", "text", "arxiv", 0⟩)
        (some ⟨"Universal Jailbreak", "https://arxiv.org/abs/3", 0, 1, "Jailbreak", ["Text"],
          ["GPT-4"], false, 5, "A working jailbreak prompt.", "Details.", [], none, none,
          "cs.AI", some 0, "arxiv"⟩) "2-1").1.analyzed_writes
      = [⟨"Universal Jailbreak", "https://arxiv.org/abs/3", 0, 1, "Jailbreak", ["Text"],
          ["GPT-4"], false, 5, "A working jailbreak prompt.", "Details.", [], none, none,
          "cs.AI", some 0, "arxiv"⟩] ∧
    (AgentCore.processEntry [] "1-1"
        (.doc ⟨"arxiv:3", "Fresh Title", "https://arxiv.org/abs/3", "text", "arxiv", 0⟩)
        (some ⟨"Universal Jailbreak", "https://arxiv.org/abs/3", 0, 1, "Jailbreak", ["Text"],
          ["GPT-4"], false, 5, "A working jailbreak prompt.", "Details.", [], none, none,
          "cs.AI", some 0, "arxiv"⟩) "2-1").1.acks = ["2-1"] ∧
    "1-1" ∉ (AgentCore.processEntry [] "1-1"
        (.doc ⟨"arxiv:3", "Fresh Title", "https://arxiv.org/abs/3", "text", "arxiv", 0⟩)
        (some ⟨"Universal Jailbreak", "https://arxiv.org/abs/3", 0, 1, "Jailbreak", ["Text"],
          ["GPT-4"], false, 5, "A working jailbreak prompt.", "Details.", [], none, none,
          "cs.AI", some 0, "arxiv"⟩) "2-1").1.acks ∧
    (AgentCore.processEntry [] "1-1"
        (.doc ⟨"arxiv:3", "Fresh Title", "https://arxiv.org/abs/3", "text", "arxiv", 0⟩)
        none "2-1").1.acks = ["1-1"] ∧
    (AgentCore.processEntry [] "1-1" PendingPayload.badJson none "2-1").1.acks = ["1-1"] ∧
    (AgentCore.processEntry
        (mark_as_processed [] ⟨"arxiv:3", "Fresh Title", "https://arxiv.org/abs/3", "text",
          "arxiv", 0⟩)
        "1-1"
        (.doc ⟨"arxiv:3", "Fresh Title", "https://arxiv.org/abs/3", "text", "arxiv", 0⟩)
        (some ⟨"Universal Jailbreak", "https://arxiv.org/abs/3", 0, 1, "Jailbreak", ["Text"],
          ["GPT-4"], false, 5, "A working jailbreak prompt.", "Details.", [], none, none,
          "cs.AI", some 0, "arxiv"⟩) "2-1").1.acks = ["1-1"] := by
  decide

set_option maxRecDepth 40000 in
/-- C9 fails: `compute_content_hash` collapses whitespace BEFORE stripping
punctuation, while the spec (and the function's own comment) state the
reverse order.  "Foo - Bar" and "Foo  Bar" differ only by one punctuation
character and agree under the spec's normalization order, yet the code
normalizes them to "foo  bar" and "foo bar", their fingerprints differ,
and after processing the first, `is_duplicate` misses the second. -/
theorem content_hash_normalization_divergence :
    differOnlyByCasePunct "Foo - Bar" "Foo  Bar" ∧
    specNormalizeTitle "Foo - Bar" = specNormalizeTitle "Foo  Bar" ∧
    codeNormalizeTitle "Foo - Bar" ≠ codeNormalizeTitle "Foo  Bar" ∧
    compute_content_hash "Foo - Bar" ≠ compute_content_hash "Foo  Bar" ∧
    is_duplicate
      (mark_as_processed []
        ⟨"arxiv:A", "Foo - Bar", "http://u", "text", "arxiv", 0⟩)
      ⟨"arxiv:B", "Foo  Bar", "http://u", "text", "arxiv", 0⟩ = false := by
  decide
